import Mathlib

/-!
Shallow embedding of the avr-sts-elevenlabs relay (src/index.js,
src/unnamed/part_000, src/unnamed/part_001).  Audio byte payloads are
lists of naturals; a frame is one such list written to the downstream
sink.  Each handler of the source is translated into a pure function or
an explicit state-transition function; the messages sent on each side
are returned as lists, in send order.
-/

namespace AvrSts

/-- Audio payload bytes, in order. -/
abbrev Bytes := List Nat

/-- One bounded unit of audio written to the downstream sink. -/
abbrev Frame := List Nat

/-- The fixed maximum frame size used by the splitting paths of
src/index.js (`const chunkSize = 8000`). -/
def chunkSize : Nat := 8000

/-- The chunk-splitting loop of src/index.js
(`for (let i = 0; i < buffer.length; i += chunkSize) push subarray(i, i + chunkSize)`),
which covers both the `buffer.length > 8000` loop and the single direct
write when the buffer is at most 8000 bytes and nonempty. -/
def splitChunks (b : Bytes) : List Frame :=
  if b.length ≤ chunkSize then
    if b.isEmpty then [] else [b]
  else
    b.take chunkSize :: splitChunks (b.drop chunkSize)
termination_by b.length
decreasing_by
  simp only [List.length_drop]
  simp only [chunkSize] at *
  omega

theorem splitChunks_flatten (b : Bytes) : (splitChunks b).flatten = b := by
  rw [splitChunks]
  split
  · split
    · simp_all [List.isEmpty_iff]
    · simp
  · rw [List.flatten_cons, splitChunks_flatten (b.drop chunkSize), List.take_append_drop]
termination_by b.length
decreasing_by
  simp only [List.length_drop]
  simp only [chunkSize] at *
  omega

theorem splitChunks_le (b : Bytes) : ∀ f ∈ splitChunks b, f.length ≤ chunkSize := by
  intro f hf
  rw [splitChunks] at hf
  split at hf
  · split at hf
    · simp at hf
    · simp at hf
      subst hf
      assumption
  · rcases List.mem_cons.mp hf with h | h
    · subst h
      simp [List.length_take]
    · exact splitChunks_le (b.drop chunkSize) f h
termination_by b.length
decreasing_by
  simp only [List.length_drop]
  simp only [chunkSize] at *
  omega

theorem splitChunks_eq_nil (b : Bytes) : splitChunks b = [] → b = [] := by
  intro h
  rw [splitChunks] at h
  split at h
  · split at h
    · simp_all [List.isEmpty_iff]
    · simp at h
  · simp at h

/-- Every frame of a split other than the last one is exactly `chunkSize`
bytes (the `subarray(i, i + chunkSize)` of a buffer with more than
`chunkSize` bytes remaining). -/
theorem splitChunks_dropLast (b : Bytes) :
    ∀ f ∈ (splitChunks b).dropLast, f.length = chunkSize := by
  intro f hf
  rw [splitChunks] at hf
  split at hf
  · split at hf
    · simp at hf
    · simp at hf
  · rename_i hlen
    rcases h0 : splitChunks (b.drop chunkSize) with _ | ⟨c, cs⟩
    · have hb : b.drop chunkSize = [] := splitChunks_eq_nil _ h0
      have : b.length - chunkSize = 0 := by
        simpa [List.length_drop] using congrArg List.length hb
      omega
    · rw [h0] at hf
      rw [List.dropLast_cons_of_ne_nil (by simp)] at hf
      rcases List.mem_cons.mp hf with h | h
      · subst h
        simp [List.length_take]
        omega
      · rw [← h0] at h
        exact splitChunks_dropLast (b.drop chunkSize) f h
termination_by b.length
decreasing_by
  simp only [List.length_drop]
  simp only [chunkSize] at *
  omega

/-- The per-connection audio framing state of the paced variant of
`createElevenLabsConnection` in src/index.js: the closure variables
`outputChunksQueue` (pending bytes not yet scheduled) and
`isSendingChunks`, plus the chunks already scheduled by
`sendChunksSequentially` but not yet written (the waits between paced
writes). -/
structure FramerState where
  outputChunksQueue : Bytes
  isSendingChunks : Bool
  inFlight : List Frame
  deriving DecidableEq

/-- The events driving the framer: an upstream `audio` message whose
decoded payload is `bytes` (the `audio_event.audio_base_64` buffer),
or one 100ms pacing timer of `sendChunksSequentially` firing. -/
inductive FramerEv where
  | audio (bytes : Bytes)
  | tick
  deriving DecidableEq

/-- The `audio` case of the paced `createElevenLabsConnection` message
handler in src/index.js: append the decoded payload to
`outputChunksQueue`; when no send is in flight, either start a paced
split (queue longer than 8000 bytes: `sendChunksSequentially` writes the
first chunk synchronously and schedules the rest) or flush the whole
queue as one write.  The downstream sink is taken as alive (normal
operation).  Returns the next state and the frames written now. -/
def framerIngest (s : FramerState) (bytes : Bytes) : FramerState × List Frame :=
  let q := s.outputChunksQueue ++ bytes
  if s.isSendingChunks then
    ({ s with outputChunksQueue := q }, [])
  else if chunkSize < q.length then
    match splitChunks q with
    | [] => ({ s with outputChunksQueue := [] }, [])
    | c :: rest => (⟨[], !rest.isEmpty, rest⟩, [c])
  else
    ({ s with outputChunksQueue := [] }, [q])

/-- One pacing timer of `sendChunksSequentially` firing: the next
scheduled chunk is written; after the last chunk the `finally` block
clears `isSendingChunks`. -/
def framerTick (s : FramerState) : FramerState × List Frame :=
  match s.inFlight with
  | [] => (s, [])
  | [c] => ({ s with inFlight := [], isSendingChunks := false }, [c])
  | c :: rest => ({ s with inFlight := rest }, [c])

/-- One framer event. -/
def framerStep (s : FramerState) : FramerEv → FramerState × List Frame
  | .audio b => framerIngest s b
  | .tick => framerTick s

/-- Run the framer over a list of events from a given state, collecting
the frames written downstream in order. -/
def framerRunFrom (s : FramerState) : List FramerEv → FramerState × List Frame
  | [] => (s, [])
  | e :: es =>
    let p := framerStep s e
    let q := framerRunFrom p.1 es
    (q.1, p.2 ++ q.2)

/-- The initial framer state of a fresh connection
(`let outputChunksQueue = Buffer.alloc(0); let isSendingChunks = false`). -/
def framerInit : FramerState := ⟨[], false, []⟩

/-- Run the framer from the initial state. -/
def framerRun (evs : List FramerEv) : FramerState × List Frame :=
  framerRunFrom framerInit evs

/-- All bytes ingested by a sequence of framer events, in order. -/
def ingestedOf (evs : List FramerEv) : Bytes :=
  (evs.map (fun e => match e with | .audio b => b | .tick => [])).flatten

/-- Bytes held by the framer but not yet written, in emission order:
chunks scheduled by an in-flight paced split first, then the pending
queue. -/
def FramerState.heldBytes (s : FramerState) : Bytes :=
  s.inFlight.flatten ++ s.outputChunksQueue

/-- Reachable-state invariant of the framer: when no send is in flight
no chunk is scheduled, and every scheduled chunk respects the maximum
frame size. -/
def FramerInv (s : FramerState) : Prop :=
  (s.isSendingChunks = false → s.inFlight = []) ∧ ∀ f ∈ s.inFlight, f.length ≤ chunkSize

theorem framerStep_spec (s : FramerState) (e : FramerEv) (hInv : FramerInv s) :
    (framerStep s e).2.flatten ++ (framerStep s e).1.heldBytes
      = s.heldBytes ++ (match e with | .audio b => b | .tick => [])
    ∧ FramerInv (framerStep s e).1
    ∧ ∀ f ∈ (framerStep s e).2, f.length ≤ chunkSize := by
  obtain ⟨q0, flag, fl⟩ := s
  obtain ⟨hflag, hsz⟩ := hInv
  cases e with
  | audio b =>
    cases flag with
    | true =>
      have hstep : framerStep ⟨q0, true, fl⟩ (.audio b) = (⟨q0 ++ b, true, fl⟩, []) := by
        simp [framerStep, framerIngest]
      rw [hstep]
      exact ⟨by simp [FramerState.heldBytes], ⟨by simp, hsz⟩, by simp⟩
    | false =>
      have hIF : fl = [] := hflag rfl
      subst hIF
      by_cases hlen : chunkSize < (q0 ++ b).length
      · rcases hsp : splitChunks (q0 ++ b) with _ | ⟨c, rest⟩
        · have h0 : q0 ++ b = [] := splitChunks_eq_nil _ hsp
          rw [h0] at hlen
          simp [chunkSize] at hlen
        · have hjoin : c ++ rest.flatten = q0 ++ b := by
            have := splitChunks_flatten (q0 ++ b)
            rw [hsp, List.flatten_cons] at this
            exact this
          have hstep : framerStep ⟨q0, false, []⟩ (.audio b)
              = (⟨[], !rest.isEmpty, rest⟩, [c]) := by
            simp [framerStep, framerIngest, hsp]
            intro hcon
            rw [List.length_append] at hlen
            omega
          rw [hstep]
          refine ⟨?_, ⟨?_, ?_⟩, ?_⟩
          · simp [FramerState.heldBytes, ← hjoin]
          · intro h
            cases rest with
            | nil => rfl
            | cons x xs => simp at h
          · intro f hf
            exact splitChunks_le _ f (by rw [hsp]; exact List.mem_cons_of_mem c hf)
          · intro f hf
            obtain rfl := List.mem_singleton.mp hf
            exact splitChunks_le _ _ (by rw [hsp]; exact List.mem_cons_self _ _)
      · have hstep : framerStep ⟨q0, false, []⟩ (.audio b) = (⟨[], false, []⟩, [q0 ++ b]) := by
          simp [framerStep, framerIngest]
          intro hcon
          rw [List.length_append] at hlen
          omega
        rw [hstep]
        refine ⟨by simp [FramerState.heldBytes], ⟨fun _ => rfl, by simp⟩, ?_⟩
        intro f hf
        obtain rfl := List.mem_singleton.mp hf
        rw [List.length_append]
        rw [List.length_append] at hlen
        omega
  | tick =>
    rcases fl with _ | ⟨c, rest⟩
    · have hstep : framerStep ⟨q0, flag, []⟩ .tick = (⟨q0, flag, []⟩, []) := by
        simp [framerStep, framerTick]
      rw [hstep]
      exact ⟨by simp, ⟨fun _ => rfl, by simp⟩, by simp⟩
    · rcases rest with _ | ⟨d, ds⟩
      · have hstep : framerStep ⟨q0, flag, [c]⟩ .tick = (⟨q0, false, []⟩, [c]) := by
          simp [framerStep, framerTick]
        rw [hstep]
        refine ⟨by simp [FramerState.heldBytes], ⟨fun _ => rfl, by simp⟩, ?_⟩
        intro f hf
        obtain rfl := List.mem_singleton.mp hf
        exact hsz _ (by simp)
      · have hstep : framerStep ⟨q0, flag, c :: d :: ds⟩ .tick
            = (⟨q0, flag, d :: ds⟩, [c]) := by
          simp [framerStep, framerTick]
        rw [hstep]
        refine ⟨by simp [FramerState.heldBytes], ⟨?_, ?_⟩, ?_⟩
        · intro h
          exact absurd (hflag h) (by simp)
        · intro f hf
          exact hsz f (List.mem_cons_of_mem c hf)
        · intro f hf
          obtain rfl := List.mem_singleton.mp hf
          exact hsz _ (by simp)

theorem framerRunFrom_spec (evs : List FramerEv) (s : FramerState) (hInv : FramerInv s) :
    (framerRunFrom s evs).2.flatten ++ (framerRunFrom s evs).1.heldBytes
      = s.heldBytes ++ ingestedOf evs
    ∧ FramerInv (framerRunFrom s evs).1
    ∧ ∀ f ∈ (framerRunFrom s evs).2, f.length ≤ chunkSize := by
  induction evs generalizing s with
  | nil => exact ⟨by simp [framerRunFrom, ingestedOf], hInv, by simp [framerRunFrom]⟩
  | cons e es ih =>
    obtain ⟨hstep, hInv', hle⟩ := framerStep_spec s e hInv
    obtain ⟨hrec, hInv'', hle'⟩ := ih (framerStep s e).1 hInv'
    refine ⟨?_, by simpa [framerRunFrom] using hInv'', ?_⟩
    · show ((framerStep s e).2 ++ (framerRunFrom (framerStep s e).1 es).2).flatten
        ++ (framerRunFrom (framerStep s e).1 es).1.heldBytes = _
      rw [List.flatten_append, List.append_assoc, hrec, ← List.append_assoc, hstep]
      simp only [ingestedOf, List.map_cons, List.flatten_cons]
      cases e <;> simp [List.append_assoc]
    · intro f hf
      show f.length ≤ chunkSize
      have : f ∈ (framerStep s e).2 ++ (framerRunFrom (framerStep s e).1 es).2 := hf
      rcases List.mem_append.mp this with h | h
      · exact hle f h
      · exact hle' f h

theorem splitChunks_rep20000 :
    splitChunks (List.replicate 20000 (0 : Nat))
      = [List.replicate 8000 0, List.replicate 8000 0, List.replicate 4000 0] := by
  rw [splitChunks, List.length_replicate, if_neg (by norm_num [chunkSize]),
    List.take_replicate, List.drop_replicate]
  norm_num [chunkSize]
  rw [splitChunks, List.length_replicate, if_neg (by norm_num [chunkSize]),
    List.take_replicate, List.drop_replicate]
  norm_num [chunkSize]
  rw [splitChunks, List.length_replicate, if_pos (by norm_num [chunkSize]),
    if_neg (by simp)]

/-- The single 20000-byte upstream audio event of the framing scenario,
followed by the two pacing timers that drain the scheduled chunks. -/
def scenarioEvs : List FramerEv :=
  [FramerEv.audio (List.replicate 20000 0), FramerEv.tick, FramerEv.tick]

theorem framerRun_scenario :
    framerRun scenarioEvs
      = (framerInit,
         [List.replicate 8000 0, List.replicate 8000 0, List.replicate 4000 0]) := by
  have h1 : framerStep framerInit (FramerEv.audio (List.replicate 20000 0))
      = (⟨[], true, [List.replicate 8000 0, List.replicate 4000 0]⟩,
         [List.replicate 8000 0]) := by
    show framerIngest framerInit (List.replicate 20000 0) = _
    rw [framerIngest]
    simp only [framerInit, List.nil_append]
    rw [if_neg (by simp),
      if_pos (by rw [List.length_replicate]; norm_num [chunkSize]),
      splitChunks_rep20000]
    simp only [List.isEmpty_cons, Bool.not_false]
  have h2 : framerStep ⟨[], true, [List.replicate 8000 0, List.replicate 4000 0]⟩
        FramerEv.tick
      = (⟨[], true, [List.replicate 4000 0]⟩, [List.replicate 8000 0]) := rfl
  have h3 : framerStep ⟨[], true, [List.replicate 4000 0]⟩ FramerEv.tick
      = (⟨[], false, []⟩, [List.replicate 4000 0]) := rfl
  show framerRunFrom framerInit scenarioEvs = _
  simp only [scenarioEvs, framerRunFrom, h1, h2, h3]
  simp only [framerInit, List.cons_append, List.nil_append, List.append_nil]

/-- The state of a WebSocket handle (`ws.readyState`). -/
inductive WsState where
  | connecting
  | opened
  | closing
  | closed
  deriving DecidableEq

/-- A parsed upstream (ElevenLabs) event, tagged by its `type` field.
Audio carries the decoded `audio_event.audio_base_64` payload; pings
carry `ping_event.event_id`; tool calls carry
`client_tool_call.{tool_name, parameters, tool_call_id}`. -/
inductive UpMsg where
  | userTranscript (text : Option String)
  | agentResponse (text : Option String)
  | agentResponseCorrection (text : Option String)
  | audio (bytes : Bytes)
  | conversationInitiationMetadata (agentFmt userFmt : String)
  | interruption
  | ping (eventId : Nat)
  | clientToolCall (toolName : String) (params : String) (toolCallId : Nat)
  | agentToolResponse
  | unknown

/-- A message the relay sends on the upstream connection. -/
inductive UpOut where
  | pong (eventId : Option Nat)
  | userAudioChunk (bytes : Bytes)
  | clientToolResult (toolCallId : Nat) (result : String) (isError : Bool)
  deriving DecidableEq

/-- A message the relay sends to the downstream client connection. -/
inductive DownMsg where
  | connected
  | transcript (role : String) (text : Option String)
  | transcriptOnly (text : Option String)
  | agentResponseText (text : Option String)
  | audio (bytes : Bytes)
  | interruption
  | conversationInitiated
  | elevenLabsDisconnected
  | error (msg : String)
  | pong (timestamp : Nat)
  deriving DecidableEq

/-- A tool handler from the external registry
(`handler(sessionUuid, parameters)`): returns a result string or throws
with an error message. -/
abbrev ToolHandler := Option String → String → Except String String

/-- The tool registry of src/unnamed/part_001 (`getToolHandler`). -/
abbrev Registry := String → Option ToolHandler

/-- The result of one downstream- or upstream-message handler
invocation of src/unnamed/part_001. -/
structure UpStepResult where
  upSends : List UpOut
  downSends : List DownMsg
  closesSession : Bool
  deriving DecidableEq

/-- The `wsElevenLabs.on("message")` switch of src/unnamed/part_001,
lines 160-280: translates one parsed upstream event into the messages
sent on each side.  No case of the switch closes a connection. -/
def part001UpstreamHandler (reg : Registry) (uuid : Option String) (m : UpMsg) :
    UpStepResult :=
  match m with
  | .conversationInitiationMetadata _ _ => ⟨[], [], false⟩
  | .agentResponse t => ⟨[], [DownMsg.transcript "agent" t], false⟩
  | .userTranscript t => ⟨[], [DownMsg.transcript "user" t], false⟩
  | .agentResponseCorrection _ => ⟨[], [DownMsg.interruption], false⟩
  | .audio b => ⟨[], [DownMsg.audio b], false⟩
  | .interruption => ⟨[], [DownMsg.interruption], false⟩
  | .ping eid => ⟨[UpOut.pong (some eid)], [], false⟩
  | .clientToolCall name params callId =>
    match reg name with
    | none =>
      ⟨[UpOut.clientToolResult callId ("No handler found for tool: " ++ name) true],
       [], false⟩
    | some h =>
      match h uuid params with
      | .ok r => ⟨[UpOut.clientToolResult callId r false], [], false⟩
      | .error e => ⟨[UpOut.clientToolResult callId e true], [], false⟩
  | .agentToolResponse => ⟨[], [], false⟩
  | .unknown => ⟨[], [], false⟩

/-- Raw data arriving on the downstream client connection:
unparseable JSON, JSON without a known `type`, or one of the
recognised client messages. -/
inductive ClientRaw where
  | unparseable
  | noType
  | audio (bytes : Bytes)
  | initMsg (uuid : Option String)
  | ping
  deriving DecidableEq

/-- The result of one `clientWs.on("message")` invocation of
src/unnamed/part_001. -/
structure ClientStepResult where
  upSends : List UpOut
  downSends : List DownMsg
  closesClient : Bool
  callsInit : Bool
  deriving DecidableEq

/-- The `clientWs.on("message")` handler of src/unnamed/part_001,
lines 89-118: `audio` is forwarded upstream only when the upstream
handle exists and is open (otherwise it is dropped; the session keeps
no buffer for it), `init` triggers the upstream initialisation, an
unknown `type` is logged and dropped, and the catch branch for
unparseable data closes the client connection. -/
def part001ClientHandler (raw : ClientRaw) (upstream : Option WsState) :
    ClientStepResult :=
  match raw with
  | .unparseable => ⟨[], [], true, false⟩
  | .noType => ⟨[], [], false, false⟩
  | .audio bytes =>
    if upstream = some WsState.opened then ⟨[UpOut.userAudioChunk bytes], [], false, false⟩
    else ⟨[], [], false, false⟩
  | .initMsg _ => ⟨[], [], false, true⟩
  | .ping => ⟨[], [], false, false⟩

/-- The result of one `clientWs.on("message")` invocation of the
WebSocket server variant in src/index.js: the messages sent back to the
client, whether the client connection is closed, and the audio payload
handed to `handleClientAudio` when the message is an `audio` message. -/
structure WssClientStep where
  downSends : List DownMsg
  closesClient : Bool
  audioForwarded : Option Bytes
  deriving DecidableEq

/-- The `clientWs.on("message")` switch of the WebSocket server in
src/index.js, lines 573-604: `audio` is dispatched to
`handleClientAudio`, `ping` is answered with a timestamped `pong` on
the same client connection (nothing goes upstream), an unknown `type`
is logged and dropped, and the catch branch replies with an
`Invalid message format` error without closing. -/
def wssClientHandler (raw : ClientRaw) (now : Nat) : WssClientStep :=
  match raw with
  | .unparseable => ⟨[DownMsg.error "Invalid message format"], false, none⟩
  | .noType => ⟨[], false, none⟩
  | .audio bytes => ⟨[], false, some bytes⟩
  | .initMsg _ => ⟨[], false, none⟩
  | .ping => ⟨[DownMsg.pong now], false, none⟩

/-- The `req.on("data")` handler of `handleAudioStream` in
src/index.js, lines 475-501: the chunk is ignored when the upstream
socket is missing, closed or closing, sent upstream when it is open,
and merely logged (not buffered) when it is still connecting. -/
def handleAudioStreamData (ws : Option WsState) (chunk : Bytes) : List UpOut :=
  match ws with
  | none => []
  | some WsState.closed => []
  | some WsState.closing => []
  | some WsState.opened => [UpOut.userAudioChunk chunk]
  | some WsState.connecting => []

/-- The audio-accumulation state of src/unnamed/part_000
(`ws.audioChunksQueue`). -/
structure Part000State where
  audioChunksQueue : Bytes
  deriving DecidableEq

/-- The `audio` case of the `ws.on("message")` handler of
src/unnamed/part_000, lines 89-122 (body reached when the payload is
nonempty and the response stream is set): accumulate the decoded bytes
and write the whole accumulated buffer downstream once it reaches 1024
bytes, with no upper bound on the written frame. -/
def part000AudioIngest (s : Part000State) (bytes : Bytes) : Part000State × List Frame :=
  let q := s.audioChunksQueue ++ bytes
  if 1024 ≤ q.length then (⟨[]⟩, [q]) else (⟨q⟩, [])

/-- The `ws.on("message")` switch of src/unnamed/part_000: audio events
feed the accumulator, a `ping` is answered with a bare
`{ type: "pong" }` carrying no `event_id`, all other events are only
logged.  Returns the new state, the messages sent upstream, and the
frames written downstream. -/
def part000UpstreamHandler (s : Part000State) (m : UpMsg) :
    Part000State × List UpOut × List Frame :=
  match m with
  | .audio b =>
    let r := part000AudioIngest s b
    (r.1, [], r.2)
  | .ping _ => (s, [UpOut.pong none], [])
  | _ => (s, [], [])

/-- The `ws.on("message")` switch of `createElevenLabsConnectionForWebSocket`
in src/index.js, lines 230-385: translates one upstream event into the
messages sent upstream and to the client.  `hasResponseStream` is
whether `ws.responseStream` is set (the audio case is guarded by it);
`agent_response_correction` is only logged. -/
def indexWsUpstreamHandler (hasResponseStream : Bool) (m : UpMsg) :
    List UpOut × List DownMsg :=
  match m with
  | .userTranscript t => ([], [DownMsg.transcriptOnly t])
  | .agentResponse t => ([], [DownMsg.agentResponseText t])
  | .agentResponseCorrection _ => ([], [])
  | .audio b =>
    if b.isEmpty then ([], [])
    else if hasResponseStream then ([], (splitChunks b).map DownMsg.audio)
    else ([], [])
  | .conversationInitiationMetadata _ _ => ([], [DownMsg.conversationInitiated])
  | .interruption => ([], [DownMsg.interruption])
  | .ping eid => ([UpOut.pong (some eid)], [])
  | .clientToolCall _ _ _ => ([], [])
  | .agentToolResponse => ([], [])
  | .unknown => ([], [])

/-- How `initializeElevenLabsConnection` in src/unnamed/part_001
resolves the agent id: from `ELEVENLABS_AGENT_ID`, from a GET to
`ELEVENLABS_AGENT_URL` (which can fail), or not at all. -/
inductive AgentIdSource where
  | envId (id : String)
  | envUrl (fetch : Except String String)
  | missing

/-- Outcome of `initializeElevenLabsConnection` in
src/unnamed/part_001, lines 121-153 and 299-309: the messages sent to
the downstream client, whether the client connection is closed by the
function, and whether an upstream connection is opened.  A missing
agent configuration or a failed agent-URL fetch closes the client
without sending anything; a failed upstream connection attempt sends
an `error` message and does not close. -/
def initElevenLabs (src : AgentIdSource) (connect : Except String Unit) :
    List DownMsg × Bool × Bool :=
  match src with
  | .missing => ([], true, false)
  | .envUrl (.error _) => ([], true, false)
  | .envUrl (.ok _) =>
    match connect with
    | .error _ => ([DownMsg.error "Failed to connect to ElevenLabs"], false, false)
    | .ok _ => ([], false, true)
  | .envId _ =>
    match connect with
    | .error _ => ([DownMsg.error "Failed to connect to ElevenLabs"], false, false)
    | .ok _ => ([], false, true)

/-- The error text of the missing-agent-id branch of the WebSocket
server connection handler in src/index.js. -/
def agentIdRequiredMsg : String :=
  "Agent ID is required. Provide via x-agent-id header or ELEVENLABS_AGENT_ID environment variable."

/-- The `wss.on("connection")` handler of src/index.js, lines 541-560,
up to the registration of the per-client handlers: with no agent id it
sends an `error` message and closes the client; otherwise it sends
`connected` and keeps the client open. -/
def wssOnConnection (agentId : Option String) : List DownMsg × Bool :=
  match agentId with
  | none => ([DownMsg.error agentIdRequiredMsg], true)
  | some _ => ([DownMsg.connected], false)

/-- Raw data arriving on the upstream connection: unparseable JSON or a
parsed event. -/
inductive UpRaw where
  | unparseable
  | valid (m : UpMsg)

/-- The `wsElevenLabs.on("message")` handler of src/unnamed/part_001
with its parse step: the catch branch for unparseable upstream data
only logs. -/
def part001UpstreamRaw (reg : Registry) (uuid : Option String) : UpRaw → UpStepResult
  | .unparseable => ⟨[], [], false⟩
  | .valid m => part001UpstreamHandler reg uuid m

/-- C1: over every event sequence the concatenation of the frames the
paced framer has written, followed by the bytes it still holds, equals
the concatenation of all ingested bytes (so at quiescence the emitted
bytes equal the ingested bytes, in order); the splitter reproduces its
input with every non-final frame exactly the maximum frame size; and a
single 20000-byte audio event yields frames of 8000, 8000 and 4000
bytes, in that order. -/
theorem claim1_audio_reframing :
    (∀ evs : List FramerEv,
        (framerRun evs).2.flatten ++ (framerRun evs).1.inFlight.flatten
          ++ (framerRun evs).1.outputChunksQueue = ingestedOf evs)
    ∧ (∀ b : Bytes, (splitChunks b).flatten = b
        ∧ ∀ f ∈ (splitChunks b).dropLast, f.length = chunkSize)
    ∧ (framerRun scenarioEvs).2.map List.length = [8000, 8000, 4000] := by
  refine ⟨?_, fun b => ⟨splitChunks_flatten b, splitChunks_dropLast b⟩, ?_⟩
  · intro evs
    have h := (framerRunFrom_spec evs framerInit ⟨fun _ => rfl, by simp [framerInit]⟩).1
    simp only [FramerState.heldBytes, framerInit, List.flatten_nil, List.nil_append,
      List.append_nil] at h
    rw [List.append_assoc]
    exact h
  · rw [framerRun_scenario]
    simp only [List.map_cons, List.map_nil, List.length_replicate]

/-- C2 counterexample: the accumulate-and-flush audio path of
src/unnamed/part_000 writes a single 16000-byte frame downstream for a
single 16000-byte ingest, exceeding the 8000-byte maximum frame size. -/
theorem claim2_counterexample :
    (part000AudioIngest ⟨[]⟩ (List.replicate 16000 0)).2.map List.length = [16000]
    ∧ ¬ (16000 ≤ chunkSize) := by
  constructor
  · rw [part000AudioIngest]
    simp only [List.nil_append]
    rw [if_pos (by rw [List.length_replicate]; norm_num)]
    simp only [List.map_cons, List.map_nil, List.length_replicate]
  · norm_num [chunkSize]

/-- C2 (amended): every frame emitted by the splitting audio paths of
src/index.js is at most the 8000-byte maximum: every frame of any run
of the paced framer, every frame of the splitter, and every audio frame
sent downstream by `createElevenLabsConnectionForWebSocket`. -/
theorem claim2_amended_frame_bound :
    (∀ (evs : List FramerEv) (f : Frame), f ∈ (framerRun evs).2 → f.length ≤ chunkSize)
    ∧ (∀ (b : Bytes) (f : Frame), f ∈ splitChunks b → f.length ≤ chunkSize)
    ∧ (∀ (rs : Bool) (m : UpMsg) (b : Bytes),
        DownMsg.audio b ∈ (indexWsUpstreamHandler rs m).2 → b.length ≤ chunkSize) := by
  refine ⟨?_, fun b f hf => splitChunks_le b f hf, ?_⟩
  · intro evs f hf
    exact (framerRunFrom_spec evs framerInit ⟨fun _ => rfl, by simp [framerInit]⟩).2.2 f hf
  · intro rs m b hb
    cases m with
    | audio bytes =>
      simp only [indexWsUpstreamHandler] at hb
      by_cases he : bytes.isEmpty
      · simp [he] at hb
      · by_cases hrs : rs
        · simp only [he, if_false, hrs, if_true, Bool.false_eq_true] at hb
          simp only [List.mem_map] at hb
          obtain ⟨f, hf, hfe⟩ := hb
          cases hfe
          exact splitChunks_le _ _ hf
        · simp [he, hrs] at hb
    | userTranscript t => simp [indexWsUpstreamHandler] at hb
    | agentResponse t => simp [indexWsUpstreamHandler] at hb
    | agentResponseCorrection t => simp [indexWsUpstreamHandler] at hb
    | conversationInitiationMetadata a u => simp [indexWsUpstreamHandler] at hb
    | interruption => simp [indexWsUpstreamHandler] at hb
    | ping eid => simp [indexWsUpstreamHandler] at hb
    | clientToolCall n p c => simp [indexWsUpstreamHandler] at hb
    | agentToolResponse => simp [indexWsUpstreamHandler] at hb
    | unknown => simp [indexWsUpstreamHandler] at hb

/-- C2 witness: the 8000-byte first frame of the 20000-byte scenario is
emitted by the paced framer and respects the bound. -/
theorem claim2_witness :
    List.replicate 8000 0 ∈ (framerRun scenarioEvs).2
    ∧ (List.replicate 8000 0).length ≤ chunkSize := by
  have hmem : List.replicate 8000 0 ∈ (framerRun scenarioEvs).2 := by
    rw [framerRun_scenario]
    exact List.mem_cons_self _ _
  exact ⟨hmem, claim2_amended_frame_bound.1 scenarioEvs _ hmem⟩

/-- C3 counterexample: the src/unnamed/part_000 upstream ping handler
answers a ping carrying event id 2 with a bare pong that carries no
event id, so the carried event identifier is not echoed. -/
theorem claim3_counterexample :
    (part000UpstreamHandler ⟨[]⟩ (UpMsg.ping 2)).2.1 = [UpOut.pong none]
    ∧ UpOut.pong none ≠ UpOut.pong (some 2) := by
  exact ⟨rfl, by simp⟩

/-- C3 (amended): every ping yields exactly one pong on the connection
it arrived on, and nothing on the other connection; the part_001 and
index.js upstream handlers echo the ping event id, the index.js
downstream handler answers with a timestamped pong, and the part_000
upstream handler answers with a pong carrying no event id. -/
theorem claim3_amended_ping_pong :
    (∀ (reg : Registry) (uuid : Option String) (eid : Nat),
        part001UpstreamHandler reg uuid (UpMsg.ping eid)
          = ⟨[UpOut.pong (some eid)], [], false⟩)
    ∧ (∀ (rs : Bool) (eid : Nat),
        indexWsUpstreamHandler rs (UpMsg.ping eid) = ([UpOut.pong (some eid)], []))
    ∧ (∀ now : Nat,
        wssClientHandler ClientRaw.ping now = ⟨[DownMsg.pong now], false, none⟩)
    ∧ (∀ (st : Part000State) (eid : Nat),
        part000UpstreamHandler st (UpMsg.ping eid) = (st, [UpOut.pong none], [])) :=
  ⟨fun _ _ _ => rfl, fun _ _ => rfl, fun _ => rfl, fun _ _ => rfl⟩

/-- C4: a `client_tool_call` whose tool name has no handler in the
registry is answered upstream with exactly one `client_tool_result`
carrying the original `tool_call_id`, `is_error` true and the
`No handler found` reason; nothing else is sent and the session is not
closed. -/
theorem claim4_unregistered_tool (reg : Registry) (uuid : Option String)
    (name params : String) (callId : Nat) (hreg : reg name = none) :
    part001UpstreamHandler reg uuid (UpMsg.clientToolCall name params callId)
      = ⟨[UpOut.clientToolResult callId ("No handler found for tool: " ++ name) true],
         [], false⟩ := by
  simp [part001UpstreamHandler, hreg]

/-- C4 witness: the empty registry at a concrete call. -/
theorem claim4_witness :
    part001UpstreamHandler (fun _ => none) none (UpMsg.clientToolCall "t" "p" 7)
      = ⟨[UpOut.clientToolResult 7 ("No handler found for tool: " ++ "t") true],
         [], false⟩ :=
  claim4_unregistered_tool (fun _ => none) none "t" "p" 7 rfl

/-- C5: a `client_tool_call` whose resolved handler throws is answered
upstream with one `client_tool_result` carrying the original
`tool_call_id`, `is_error` true and the handler error message as the
result; nothing else is sent and the session is not closed. -/
theorem claim5_tool_error (reg : Registry) (uuid : Option String)
    (name params : String) (callId : Nat) (th : ToolHandler) (emsg : String)
    (hreg : reg name = some th) (herr : th uuid params = Except.error emsg) :
    part001UpstreamHandler reg uuid (UpMsg.clientToolCall name params callId)
      = ⟨[UpOut.clientToolResult callId emsg true], [], false⟩ := by
  simp [part001UpstreamHandler, hreg, herr]

/-- C5 witness: a registry with one always-throwing handler at a
concrete call. -/
theorem claim5_witness :
    part001UpstreamHandler (fun _ => some (fun _ _ => Except.error "boom")) (some "u")
        (UpMsg.clientToolCall "t" "p" 9)
      = ⟨[UpOut.clientToolResult 9 "boom" true], [], false⟩ :=
  claim5_tool_error (fun _ => some (fun _ _ => Except.error "boom")) (some "u")
    "t" "p" 9 (fun _ _ => Except.error "boom") "boom" rfl rfl

/-- C6 counterexample: the `createElevenLabsConnectionForWebSocket`
upstream handler of src/index.js sends no `interruption` (indeed no
message at all) downstream on `agent_response_correction`; the claimed
count of exactly one fails. -/
theorem claim6_counterexample :
    (indexWsUpstreamHandler true (UpMsg.agentResponseCorrection (some "x"))).2
        = ([] : List DownMsg)
    ∧ ([] : List DownMsg) ≠ [DownMsg.interruption] := by
  exact ⟨rfl, by simp⟩

/-- C6 (amended): on `agent_response_correction` the part_001 upstream
handler sends exactly one `interruption` downstream and nothing
upstream, while the `createElevenLabsConnectionForWebSocket` handler of
src/index.js only logs it and sends nothing. -/
theorem claim6_amended_correction :
    (∀ (reg : Registry) (uuid : Option String) (t : Option String),
        part001UpstreamHandler reg uuid (UpMsg.agentResponseCorrection t)
          = ⟨[], [DownMsg.interruption], false⟩)
    ∧ (∀ (rs : Bool) (t : Option String),
        indexWsUpstreamHandler rs (UpMsg.agentResponseCorrection t) = ([], [])) :=
  ⟨fun _ _ _ => rfl, fun _ _ => rfl⟩

/-- C7 counterexample: an unparseable downstream message in
src/unnamed/part_001 reaches the catch branch, which closes the client
connection, so a malformed message does close the session there. -/
theorem claim7_counterexample :
    (part001ClientHandler ClientRaw.unparseable (some WsState.opened)).closesClient
      = true := rfl

/-- C7 (amended): malformed upstream data is logged and dropped with the
session continuing; a downstream message with a missing or unknown type
is dropped without closing in both downstream handlers; a downstream
unparseable message is answered with an `Invalid message format` error
(no close) by the index.js WebSocket handler but closes the client in
the part_001 handler. -/
theorem claim7_amended_malformed :
    (∀ (reg : Registry) (uuid : Option String),
        part001UpstreamRaw reg uuid UpRaw.unparseable = ⟨[], [], false⟩)
    ∧ (∀ st : Option WsState,
        part001ClientHandler ClientRaw.noType st = ⟨[], [], false, false⟩)
    ∧ (∀ now : Nat, wssClientHandler ClientRaw.noType now = ⟨[], false, none⟩)
    ∧ (∀ now : Nat, wssClientHandler ClientRaw.unparseable now
        = ⟨[DownMsg.error "Invalid message format"], false, none⟩)
    ∧ (∀ st : Option WsState,
        part001ClientHandler ClientRaw.unparseable st = ⟨[], [], true, false⟩) :=
  ⟨fun _ _ => rfl, fun _ => rfl, fun _ => rfl, fun _ => rfl, fun _ => rfl⟩

/-- C8: a downstream audio chunk arriving while the upstream connection
is absent or not open is never sent upstream and triggers no other
action (no buffering, no close) in the part_001 downstream handler and
in the `handleAudioStream` data handler of src/index.js. -/
theorem claim8_no_audio_before_open (st : Option WsState) (bytes : Bytes)
    (h : st ≠ some WsState.opened) :
    part001ClientHandler (ClientRaw.audio bytes) st = ⟨[], [], false, false⟩
    ∧ handleAudioStreamData st bytes = [] := by
  constructor
  · simp [part001ClientHandler, h]
  · match st with
    | none => rfl
    | some WsState.closed => rfl
    | some WsState.closing => rfl
    | some WsState.connecting => rfl
    | some WsState.opened => exact absurd rfl h

/-- C8 witness: a chunk arriving while the upstream socket is still
connecting. -/
theorem claim8_witness :
    part001ClientHandler (ClientRaw.audio [1, 2, 3]) (some WsState.connecting)
        = ⟨[], [], false, false⟩
    ∧ handleAudioStreamData (some WsState.connecting) [1, 2, 3] = [] :=
  claim8_no_audio_before_open (some WsState.connecting) [1, 2, 3] (by simp)

/-- C9 counterexample: in src/unnamed/part_001 a missing agent
configuration closes the client with no downstream message at all, and
a failed upstream connection attempt sends the error but does not close
the client — both contradicting "sends an error message before
closing". -/
theorem claim9_counterexample :
    initElevenLabs AgentIdSource.missing (Except.ok ()) = ([], true, false)
    ∧ initElevenLabs (AgentIdSource.envId "a") (Except.error "x")
        = ([DownMsg.error "Failed to connect to ElevenLabs"], false, false) :=
  ⟨rfl, rfl⟩

/-- C9 (amended): the index.js WebSocket server answers a connection
with no agent id with exactly one error message and a close, without
opening upstream; in part_001 a missing agent configuration or a failed
agent-URL fetch closes the client without sending anything, and a
failed upstream connection attempt sends one error message without
closing; in every failure case no upstream connection is opened. -/
theorem claim9_amended_init_failure :
    (wssOnConnection none = ([DownMsg.error agentIdRequiredMsg], true))
    ∧ (∀ c, initElevenLabs AgentIdSource.missing c = ([], true, false))
    ∧ (∀ (e : String) c,
        initElevenLabs (AgentIdSource.envUrl (Except.error e)) c = ([], true, false))
    ∧ (∀ (id e : String),
        initElevenLabs (AgentIdSource.envId id) (Except.error e)
          = ([DownMsg.error "Failed to connect to ElevenLabs"], false, false))
    ∧ (∀ (id e : String),
        initElevenLabs (AgentIdSource.envUrl (Except.ok id)) (Except.error e)
          = ([DownMsg.error "Failed to connect to ElevenLabs"], false, false)) :=
  ⟨rfl, fun _ => rfl, fun _ _ => rfl, fun _ _ => rfl, fun _ _ => rfl⟩

/-- C10: while a paced split is in flight (`isSendingChunks` set) an
ingest only appends the new bytes to the pending `outputChunksQueue`,
emitting nothing and leaving the in-flight chunks untouched; and once
the in-flight split has completed, the next ingest flushes exactly the
pending bytes followed by the newly ingested bytes (the pending buffer
heads the next flush). -/
theorem claim10_pending_buffer :
    (∀ (s : FramerState) (bytes : Bytes), s.isSendingChunks = true →
        framerIngest s bytes
          = ({ s with outputChunksQueue := s.outputChunksQueue ++ bytes }, []))
    ∧ (∀ (s : FramerState) (bytes : Bytes),
        s.isSendingChunks = false → s.inFlight = [] →
        ((framerIngest s bytes).2 ++ (framerIngest s bytes).1.inFlight).flatten
          = s.outputChunksQueue ++ bytes) := by
  constructor
  · intro s bytes h
    simp [framerIngest, h]
  · intro s bytes h0 hIF
    obtain ⟨q0, flag, fl⟩ := s
    simp only at h0 hIF
    subst h0
    subst hIF
    by_cases hlen : chunkSize < (q0 ++ bytes).length
    · rcases hsp : splitChunks (q0 ++ bytes) with _ | ⟨c, rest⟩
      · have h0' : q0 ++ bytes = [] := splitChunks_eq_nil _ hsp
        rw [h0'] at hlen
        simp [chunkSize] at hlen
      · have hstep : framerIngest ⟨q0, false, []⟩ bytes
            = (⟨[], !rest.isEmpty, rest⟩, [c]) := by
          simp [framerIngest, hsp]
          intro hcon
          rw [List.length_append] at hlen
          omega
        rw [hstep]
        have := splitChunks_flatten (q0 ++ bytes)
        rw [hsp, List.flatten_cons] at this
        simpa using this
    · have hstep : framerIngest ⟨q0, false, []⟩ bytes
          = (⟨[], false, []⟩, [q0 ++ bytes]) := by
        simp [framerIngest]
        intro hcon
        rw [List.length_append] at hlen
        omega
      rw [hstep]
      simp

/-- C10 witness: an ingest during an in-flight split only grows the
pending queue; after completion the next ingest flushes pending bytes
first. -/
theorem claim10_witness :
    framerIngest ⟨[1, 2], true, [[3]]⟩ [4] = (⟨[1, 2, 4], true, [[3]]⟩, [])
    ∧ ((framerIngest ⟨[1, 2], false, []⟩ [3]).2
        ++ (framerIngest ⟨[1, 2], false, []⟩ [3]).1.inFlight).flatten = [1, 2, 3] := by
  constructor
  · have h := claim10_pending_buffer.1 ⟨[1, 2], true, [[3]]⟩ [4] rfl
    simpa using h
  · have h := claim10_pending_buffer.2 ⟨[1, 2], false, []⟩ [3] rfl rfl
    simpa using h

end AvrSts
